import Mathlib

/-!
Verification of the endpoint-resolution and response-normalization core of
`app.py` (a search front-end over the Korean public-procurement API).

The Python code is shallowly embedded:
* JSON / Python values are `PyVal`; Python truthiness is `PyVal.truthy`.
* Fallible Python operations (`.get` on a non-dict, `in` on an unsupported
  type, `len` on a non-sized value, JSON parse failures) return
  `Except PyExc _`, with `PyExc` naming the Python exception class raised.
* The network layer is a parameter `http : HttpEnv` mapping a URL and a query
  parameter set to the observed outcome of `requests.get` for that call.
* `fetch_nara_dataE` is `fetch_nara_data` (app.py lines 94-171) with the
  exception semantics explicit: `.error e` would mean an exception propagated
  out of the per-endpoint loop; the totality theorem shows this never happens.
-/

set_option autoImplicit false

/-- Python/JSON values as they occur in parsed API responses. -/
inductive PyVal where
  | none
  | str (s : String)
  | int (n : Int)
  | bool (b : Bool)
  | list (xs : List PyVal)
  | dict (kvs : List (String × PyVal))

/-- Python truthiness for the values above. -/
def PyVal.truthy : PyVal → Bool
  | .none => false
  | .str s => !(s == "")
  | .int n => !(n == 0)
  | .bool b => b
  | .list xs => !xs.isEmpty
  | .dict kvs => !kvs.isEmpty

/-- Python `a or b` (short-circuit on truthiness). -/
def pyOr (a b : PyVal) : PyVal := if a.truthy then a else b

/-- Python exception classes that the embedded code can raise. -/
inductive PyExc where
  | timeoutExc
  | requestExc
  | valueErrorExc
  | attributeErrorExc
  | typeErrorExc
  | keyErrorExc

/-- First-match association-list lookup, the dict-key lookup of the model. -/
def alookup {α : Type} (k : String) : List (String × α) → Option α
  | [] => Option.none
  | (k1, v) :: rest => if k1 = k then some v else alookup k rest

/-- `dict.get(k, d)` on the entry list of a Python dict. -/
def pyGetD (kvs : List (String × PyVal)) (k : String) (d : PyVal) : PyVal :=
  (alookup k kvs).getD d

/-- `v.get(k, d)`: dict lookup with default; any non-dict raises
    `AttributeError` (only dicts have `.get`). -/
def pyGet (v : PyVal) (k : String) (d : PyVal) : Except PyExc PyVal :=
  match v with
  | .dict kvs => .ok (pyGetD kvs k d)
  | _ => .error .attributeErrorExc

/-- Substring test, used for Python `k in s` on strings. -/
def strContains (s sub : String) : Bool := !((s.splitOn sub).length == 1)

/-- Python `k in v` for a string key `k`: key test on dicts, membership on
    lists (string elements only can compare equal), substring test on
    strings, `TypeError` otherwise. -/
def pyIn (k : String) (v : PyVal) : Except PyExc Bool :=
  match v with
  | .dict kvs => .ok (kvs.any (fun p => p.1 == k))
  | .list xs => .ok (xs.any (fun x => match x with | .str s => s == k | _ => false))
  | .str s => .ok (strContains s k)
  | _ => .error .typeErrorExc

/-- Python slice `s[a:b]` on a string (character-based, like Python `str`). -/
def pySlice (s : String) (a b : Nat) : String :=
  String.mk ((s.data.drop a).take (b - a))

/-- app.py lines 59-65, `format_datetime`: 12-character compact timestamps
    become `YYYY-MM-DD HH:MM`, 8-character compact dates become
    `YYYY-MM-DD`, and otherwise the final line `return date_str or '-'`
    yields the input unchanged when non-empty and `-` when empty. -/
def format_datetime (date_str : String) : String :=
  if !(date_str == "") && date_str.length == 12 then
    pySlice date_str 0 4 ++ "-" ++ pySlice date_str 4 6 ++ "-" ++
      pySlice date_str 6 8 ++ " " ++ pySlice date_str 8 10 ++ ":" ++
      pySlice date_str 10 12
  else if !(date_str == "") && date_str.length == 8 then
    pySlice date_str 0 4 ++ "-" ++ pySlice date_str 4 6 ++ "-" ++
      pySlice date_str 6 8
  else if !(date_str == "") then date_str else "-"

/-- A Python `datetime.date`, as far as `strftime("%Y%m%d")` needs it. -/
structure PyDate where
  year : Nat
  month : Nat
  day : Nat

/-- Zero-pad to two digits (`%m`, `%d`). -/
def pad2 (n : Nat) : String := if n < 10 then "0" ++ toString n else toString n

/-- Zero-pad to four digits (`%Y`). -/
def pad4 (n : Nat) : String :=
  if n < 10 then "000" ++ toString n
  else if n < 100 then "00" ++ toString n
  else if n < 1000 then "0" ++ toString n
  else toString n

/-- `d.strftime("%Y%m%d")`. -/
def strftimeYmd (d : PyDate) : String := pad4 d.year ++ pad2 d.month ++ pad2 d.day

/-- app.py lines 80-90, `validate_date_range`: a tuple of exactly two dates
    becomes `(YYYYMMDD0000, YYYYMMDD2359)`; any other arity is rejected. -/
def validate_date_range : List PyDate → Option (String × String)
  | [start_dt, end_dt] =>
      some (strftimeYmd start_dt ++ "0000", strftimeYmd end_dt ++ "2359")
  | _ => Option.none

/-- app.py lines 35-41 / 48-54: the per-mode field mapping. -/
structure FieldsCfg where
  title : String
  org : String
  date : String
  link : String
  date_label : String

/-- One entry of `API_ENDPOINTS`: candidate URLs in trial order, the
    keyword query-parameter name, and the field mapping. -/
structure EndpointConfig where
  urls : List String
  param_name : String
  fields : FieldsCfg

/-- app.py lines 29-42: the bid-notice (입찰공고) endpoint configuration. -/
def bidNoticeConfig : EndpointConfig :=
  { urls := ["https://apis.data.go.kr/1230000/BidPublicInfoService02/getBidPblancListInfoServcPPSSrch",
             "https://apis.data.go.kr/1230000/ad/BidPublicInfoService/getBidPblancListInfoServcPPSSrch"],
    param_name := "bidNtceNm",
    fields := { title := "bidNtceNm", org := "dminsttNm", date := "bidClseDt",
                link := "bidNtceDtlUrl", date_label := "마감일" } }

/-- app.py lines 43-55: the pre-specification (사전규격) endpoint configuration. -/
def preSpecConfig : EndpointConfig :=
  { urls := ["https://apis.data.go.kr/1230000/ao/HrcspSsstndrdInfoService/getPublicPrcureThngInfoServcPPSSrch"],
    param_name := "bfSpecNm",
    fields := { title := "bfSpecNm", org := "dminsttNm", date := "bfSpecRegDt",
                link := "bfSpecDtlUrl", date_label := "등록일" } }

/-- app.py lines 28-56: `API_ENDPOINTS`. -/
def API_ENDPOINTS : List (String × EndpointConfig) :=
  [("입찰공고", bidNoticeConfig), ("사전규격", preSpecConfig)]

/-- app.py lines 20-25: `API_CONFIG` (row count, page number, timeout,
    inquiry-division flag). -/
structure ApiConfig where
  num_rows : Nat
  page_no : Nat
  timeout : Nat
  inqry_div : String

def API_CONFIG : ApiConfig :=
  { num_rows := 30, page_no := 1, timeout := 15, inqry_div := "1" }

/-- Hexadecimal digit value, for percent-decoding. -/
def hexVal (c : Char) : Option Nat :=
  if '0' ≤ c ∧ c ≤ '9' then some (c.toNat - '0'.toNat)
  else if 'a' ≤ c ∧ c ≤ 'f' then some (c.toNat - 'a'.toNat + 10)
  else if 'A' ≤ c ∧ c ≤ 'F' then some (c.toNat - 'A'.toNat + 10)
  else Option.none

/-- Percent-decoding on a character list: `%XY` with two hex digits becomes
    the character with code `16*X+Y`; a malformed escape is kept verbatim. -/
def unquoteChars : List Char → List Char
  | [] => []
  | '%' :: a :: b :: rest =>
    match hexVal a, hexVal b with
    | some ha, some hb => Char.ofNat (16 * ha + hb) :: unquoteChars rest
    | _, _ => '%' :: unquoteChars (a :: b :: rest)
  | c :: rest => c :: unquoteChars rest

/-- `urllib.parse.unquote`, modelled for single-byte percent-escapes (the
    service keys in play are ASCII; multi-byte UTF-8 escapes are decoded
    bytewise here rather than recombined). -/
def unquote (s : String) : String := String.mk (unquoteChars s.data)

/-- A query-parameter set, as the ordered entry list of the Python dict. -/
abbrev Params := List (String × String)

/-- app.py lines 122-131: the request parameters, built once per search and
    shared by every endpoint attempt. -/
def buildParams (config : EndpointConfig)
    (keyword start_date end_date service_key : String) : Params :=
  [("serviceKey", unquote service_key),
   ("numOfRows", toString API_CONFIG.num_rows),
   ("pageNo", toString API_CONFIG.page_no),
   ("inqryDiv", API_CONFIG.inqry_div),
   ("inqryBgnDt", start_date),
   ("inqryEndDt", end_date),
   (config.param_name, keyword),
   ("type", "json")]

/-- Observable outcome of one `requests.get(url, params, timeout)` call:
    either the call raised (`exc`), or an HTTP response arrived with a
    status code and a body whose JSON parse (`response.json()`) either
    succeeded or raised. -/
inductive HttpOutcome where
  | exc (e : PyExc)
  | resp (status : Nat) (body : Except PyExc PyVal)

/-- The network, as a function from the URL and parameters actually sent to
    the outcome of that call. -/
abbrev HttpEnv := String → Params → HttpOutcome

/-- app.py line 147: `data.get('response', {}).get('header', {}).get('resultCode')`. -/
def getResultCode (data : PyVal) : Except PyExc PyVal :=
  match pyGet data "response" (.dict []) with
  | .error e => .error e
  | .ok r =>
    match pyGet r "header" (.dict []) with
    | .error e => .error e
    | .ok h => pyGet h "resultCode" PyVal.none

/-- Python `rc == '00'` for a JSON value: only the string `"00"` compares equal. -/
def isStr00 : PyVal → Bool
  | .str s => s == "00"
  | _ => false

/-- app.py lines 137-160, the body of one endpoint attempt inside `try`:
    `.ok (some data)` = accepted response (the function returns),
    `.ok none` = rejected, move on to the next candidate (non-200 status,
    missing `response` key, business error), `.error e` = the attempt raised
    exception `e` (network failure, JSON parse failure, bad `in`/`.get`). -/
def classifyAttempt (o : HttpOutcome) : Except PyExc (Option PyVal) :=
  match o with
  | .exc e => .error e
  | .resp status body =>
    if status = 200 then
      match body with
      | .error e => .error e
      | .ok data =>
        match pyIn "response" data with
        | .error e => .error e
        | .ok contains =>
          if !contains then .ok Option.none
          else
            match getResultCode data with
            | .error e => .error e
            | .ok rc =>
              if rc.truthy && !(isStr00 rc) then .ok Option.none
              else .ok (some data)
    else .ok Option.none

/-- Whether an attempt outcome is accepted (the loop returns on it). -/
def acceptsB (o : HttpOutcome) : Bool :=
  match classifyAttempt o with
  | .ok (some _) => true
  | _ => false

/-- The record returned on success: `{'data': ..., 'url': ..., 'attempt': ...}`
    (app.py lines 154-158). -/
structure FetchSuccess where
  data : PyVal
  url : String
  attempt : Nat

/-- The `except` clauses of app.py lines 162-169, in order. -/
inductive Handler where
  | timeoutH
  | requestExceptionH
  | valueErrorH
  | exceptionH

/-- Which exception classes each handler catches (`requests.Timeout` is a
    subclass of `requests.RequestException`; every class here derives from
    `Exception`, so the final blanket clause catches everything). -/
def handledBy : PyExc → Handler → Bool
  | .timeoutExc, .timeoutH => true
  | .timeoutExc, .requestExceptionH => true
  | .requestExc, .requestExceptionH => true
  | .valueErrorExc, .valueErrorH => true
  | _, .exceptionH => true
  | _, _ => false

def handlers : List Handler :=
  [.timeoutH, .requestExceptionH, .valueErrorH, .exceptionH]

/-- An exception raised inside the loop body is caught iff some handler
    matches it; otherwise it would propagate out of `fetch_nara_data`. -/
def isCaught (e : PyExc) : Bool := handlers.any (handledBy e)

/-- app.py lines 134-170: the per-endpoint loop. Returns the loop's result
    (`.error e` = an uncaught exception propagates) together with the trace
    of `(url, params)` pairs actually sent to `requests.get`. -/
def fetchLoop (http : HttpEnv) (params : Params) :
    List String → Nat → Except PyExc (Option FetchSuccess) × List (String × Params)
  | [], _ => (.ok Option.none, [])
  | url :: rest, idx =>
    match classifyAttempt (http url params) with
    | .ok (some d) => (.ok (some ⟨d, url, idx⟩), [(url, params)])
    | .ok Option.none =>
      let r := fetchLoop http params rest (idx + 1)
      (r.1, (url, params) :: r.2)
    | .error e =>
      if isCaught e then
        let r := fetchLoop http params rest (idx + 1)
        (r.1, (url, params) :: r.2)
      else (.error e, [(url, params)])

/-- app.py lines 94-171, `fetch_nara_data` with the exception semantics
    explicit: an unknown search type returns `None` immediately; otherwise
    the candidate URLs are tried in order starting at attempt index 1.
    `.ok (some r)` = the function returns the success record `r`,
    `.ok none` = the function returns `None`, `.error e` = an exception
    escapes the function (shown impossible below). -/
def fetch_nara_dataE (http : HttpEnv)
    (search_type keyword start_date end_date service_key : String) :
    Except PyExc (Option FetchSuccess) :=
  match alookup search_type API_ENDPOINTS with
  | Option.none => .ok Option.none
  | some config =>
    (fetchLoop http (buildParams config keyword start_date end_date service_key)
      config.urls 1).1

/-- The `(url, params)` pairs `fetch_nara_data` actually sends. -/
def fetchCalls (http : HttpEnv)
    (search_type keyword start_date end_date service_key : String) :
    List (String × Params) :=
  match alookup search_type API_ENDPOINTS with
  | Option.none => []
  | some config =>
    (fetchLoop http (buildParams config keyword start_date end_date service_key)
      config.urls 1).2

/-- app.py line 175: `api_response.get('data', {}).get('response', {})
    .get('body', {}).get('items')`. -/
def extractItems (api_response : PyVal) : Except PyExc PyVal :=
  match pyGet api_response "data" (.dict []) with
  | .error e => .error e
  | .ok d =>
    match pyGet d "response" (.dict []) with
    | .error e => .error e
    | .ok r =>
      match pyGet r "body" (.dict []) with
      | .error e => .error e
      | .ok b => pyGet b "items" PyVal.none

/-- app.py lines 189-193: the ordered title fallback chain
    `item.get(fields['title']) or item.get('prdctNm') or
     item.get('bidNtceNm') or item.get('bfSpecNm') or '제목 없음'`. -/
def titleChain (fields : FieldsCfg) (kvs : List (String × PyVal)) : PyVal :=
  pyOr (pyGetD kvs fields.title PyVal.none)
    (pyOr (pyGetD kvs "prdctNm" PyVal.none)
      (pyOr (pyGetD kvs "bidNtceNm" PyVal.none)
        (pyOr (pyGetD kvs "bfSpecNm" PyVal.none) (.str "제목 없음"))))

mutual

/-- Python `repr` of a JSON-shaped value, as `str()` renders list slices
    inside an f-string (`str(list)` falls back to `repr`). String escaping
    is simplified to bare single quotes — CPython additionally escapes
    embedded quotes, backslashes and non-printables, and switches quote
    style; no claim depends on this text, only on success versus raising. -/
def pyRepr : PyVal → String
  | .none => "None"
  | .bool b => if b then "True" else "False"
  | .int n => toString n
  | .str s => "\x27" ++ s ++ "\x27"
  | .list xs => "[" ++ pyReprElems xs ++ "]"
  | .dict kvs => "\x7b" ++ pyReprEntries kvs ++ "\x7d"

/-- Comma-joined `repr`s of list elements. -/
def pyReprElems : List PyVal → String
  | [] => ""
  | [x] => pyRepr x
  | x :: y :: xs => pyRepr x ++ ", " ++ pyReprElems (y :: xs)

/-- Comma-joined `repr`s of dict entries. -/
def pyReprEntries : List (String × PyVal) → String
  | [] => ""
  | [(k, v)] => "\x27" ++ k ++ "\x27: " ++ pyRepr v
  | (k, v) :: e :: es => "\x27" ++ k ++ "\x27: " ++ pyRepr v ++ ", " ++ pyReprEntries (e :: es)

end

/-- app.py line 198 applies `format_datetime` to whatever value the item's
    date field holds, and the function is duck-typed (app.py 59-65):
    * a string is formatted by `format_datetime` above;
    * a falsy value (None, 0, False, an empty collection) short-circuits
      both `if date_str and len(date_str) == ...` conditions before `len()`
      is reached, and the final `return date_str or '-'` yields "-";
    * a truthy number or boolean raises `TypeError` at `len()`;
    * a truthy list passes `len()`; when its length is 12 or 8 the slices
      are taken from the list and rendered by the f-string (via `pyRepr`),
      otherwise the final line returns the list itself unchanged;
    * a truthy dict passes `len()` but raises `TypeError` at the slice
      `date_str[:4]` (unhashable slice) when its length is 12 or 8, and is
      otherwise returned unchanged by the final line. -/
def format_datetimeV : PyVal → Except PyExc PyVal
  | .str s => .ok (.str (format_datetime s))
  | .none => .ok (.str "-")
  | .int n => if n == 0 then .ok (.str "-") else .error .typeErrorExc
  | .bool b => if b then .error .typeErrorExc else .ok (.str "-")
  | .list xs =>
    if xs.isEmpty then .ok (.str "-")
    else if xs.length == 12 then
      .ok (.str (pyRepr (.list (xs.take 4)) ++ "-" ++
        pyRepr (.list ((xs.drop 4).take 2)) ++ "-" ++
        pyRepr (.list ((xs.drop 6).take 2)) ++ " " ++
        pyRepr (.list ((xs.drop 8).take 2)) ++ ":" ++
        pyRepr (.list ((xs.drop 10).take 2))))
    else if xs.length == 8 then
      .ok (.str (pyRepr (.list (xs.take 4)) ++ "-" ++
        pyRepr (.list ((xs.drop 4).take 2)) ++ "-" ++
        pyRepr (.list ((xs.drop 6).take 2))))
    else .ok (.list xs)
  | .dict kvs =>
    if kvs.isEmpty then .ok (.str "-")
    else if kvs.length == 12 || kvs.length == 8 then .error .typeErrorExc
    else .ok (.dict kvs)

/-- One canonical item as built in app.py lines 195-202. The date field
    holds whatever `format_datetime` returned — a string in every ordinary
    case, but the input value itself when a truthy non-empty collection of
    length other than 12/8 falls through `return date_str or '-'`. -/
structure ParsedItem where
  title : PyVal
  org : PyVal
  date : PyVal
  link : PyVal
  date_label : String
  raw : PyVal

/-- app.py lines 187-202, the body of the per-item loop: a non-dict item
    raises `AttributeError` at its first `.get`; otherwise every field is a
    dict lookup with the source's default, the title comes from the fallback
    chain, and the date field goes through `format_datetime`. -/
def parse_one (fields : FieldsCfg) (item : PyVal) : Except PyExc ParsedItem :=
  match item with
  | .dict kvs =>
    match format_datetimeV (pyGetD kvs fields.date (.str "")) with
    | .error e => .error e
    | .ok date =>
      .ok { title := titleChain fields kvs,
            org := pyGetD kvs fields.org (.str "기관명 없음"),
            date := date,
            link := pyGetD kvs fields.link (.str "#"),
            date_label := fields.date_label,
            raw := .dict kvs }
  | _ => .error .attributeErrorExc

/-- The per-item loop over the (already wrapped) item list: the first raised
    exception propagates, otherwise the parsed items are collected in order. -/
def mapParse (f : PyVal → Except PyExc ParsedItem) :
    List PyVal → Except PyExc (List ParsedItem)
  | [] => .ok []
  | x :: xs =>
    match f x with
    | .error e => .error e
    | .ok p =>
      match mapParse f xs with
      | .error e => .error e
      | .ok ps => .ok (p :: ps)

/-- app.py lines 180-182: a bare non-list `items` value is wrapped into a
    one-element list (`if not isinstance(items, list): items = [items]`). -/
def wrapItems : PyVal → List PyVal
  | .list xs => xs
  | v => [v]

/-- app.py lines 173-204, `parse_items`: extract `items`, return `[]` when
    it is falsy (absent/None/empty), wrap a bare non-list item in a
    one-element list, look up the mode's field mapping
    (`API_ENDPOINTS[search_type]` raises `KeyError` on an unknown mode),
    and parse each item. -/
def parse_items (api_response : PyVal) (search_type : String) :
    Except PyExc (List ParsedItem) :=
  match extractItems api_response with
  | .error e => .error e
  | .ok items =>
    if !items.truthy then .ok []
    else
      match alookup search_type API_ENDPOINTS with
      | Option.none => .error .keyErrorExc
      | some config => mapParse (parse_one config.fields) (wrapItems items)

/-- A raw fetch-result record whose `data.response.body.items` is `v`, used
    for concrete instances below. -/
def respWithItems (v : PyVal) : PyVal :=
  .dict [("data", .dict [("response", .dict [("body", .dict [("items", v)])])])]

/-- A network where every call raises a timeout. -/
def httpTimeoutAll : HttpEnv := fun _ _ => .exc .timeoutExc

/-- A network where every call answers HTTP 500. -/
def http500All : HttpEnv := fun _ _ => .resp 500 (.ok (.dict []))

/-- A structurally valid, business-successful response body. -/
def goodData : PyVal :=
  .dict [("response",
    .dict [("header", .dict [("resultCode", .str "00"), ("resultMsg", .str "정상")]),
           ("body", .dict [("items", .list [])])])]

/-- A network where the first bid-notice URL answers HTTP 500 and the
    second answers a valid success. -/
def httpSecondOK : HttpEnv := fun url _ =>
  if url = "https://apis.data.go.kr/1230000/ad/BidPublicInfoService/getBidPblancListInfoServcPPSSrch"
  then .resp 200 (.ok goodData)
  else .resp 500 (.ok (.dict []))

/-- The parse of an item whose date field is JSON null (formatted to "-"
    through the falsy short-circuit) and whose title comes from the generic
    product-name alternate, every other field defaulted. -/
def pW : ParsedItem :=
  { title := .str "W", org := .str "기관명 없음", date := .str "-", link := .str "#",
    date_label := "마감일",
    raw := .dict [("prdctNm", .str "W"), ("bidClseDt", PyVal.none)] }

/-- A parsed body whose `resultCode` is present but the empty string. -/
def dataFalsyRC : PyVal :=
  .dict [("response", .dict [("header", .dict [("resultCode", .str "")])])]

/-! ## Helper lemmas -/

theorem isCaught_eq_true (e : PyExc) : isCaught e = true := by
  cases e <;> rfl

theorem fetchLoop_cons_accept (http : HttpEnv) (params : Params) (u : String)
    (rest : List String) (idx : Nat) (d : PyVal)
    (hc : classifyAttempt (http u params) = .ok (some d)) :
    fetchLoop http params (u :: rest) idx =
      (.ok (some ⟨d, u, idx⟩), [(u, params)]) := by
  simp only [fetchLoop, hc]

theorem fetchLoop_cons_skip (http : HttpEnv) (params : Params) (u : String)
    (rest : List String) (idx : Nat)
    (hc : classifyAttempt (http u params) = .ok Option.none) :
    fetchLoop http params (u :: rest) idx =
      ((fetchLoop http params rest (idx + 1)).1,
       (u, params) :: (fetchLoop http params rest (idx + 1)).2) := by
  simp only [fetchLoop, hc]

theorem fetchLoop_cons_caught (http : HttpEnv) (params : Params) (u : String)
    (rest : List String) (idx : Nat) (e : PyExc)
    (hc : classifyAttempt (http u params) = .error e) :
    fetchLoop http params (u :: rest) idx =
      if isCaught e then
        ((fetchLoop http params rest (idx + 1)).1,
         (u, params) :: (fetchLoop http params rest (idx + 1)).2)
      else (.error e, [(u, params)]) := by
  simp only [fetchLoop, hc]

theorem fetchLoop_first (http : HttpEnv) (params : Params) :
    ∀ (urls : List String) (idx j : Nat) (hj : j < urls.length) (d : PyVal),
      classifyAttempt (http (urls.get ⟨j, hj⟩) params) = .ok (some d) →
      (∀ i (hi : i < j), acceptsB (http (urls.get ⟨i, Nat.lt_trans hi hj⟩) params) = false) →
      (fetchLoop http params urls idx).1 = .ok (some ⟨d, urls.get ⟨j, hj⟩, idx + j⟩) := by
  intro urls
  induction urls with
  | nil => intro idx j hj d hd hb; exact absurd hj (Nat.not_lt_zero j)
  | cons u rest ih =>
    intro idx j hj d hd hb
    cases j with
    | zero =>
      have hu : classifyAttempt (http u params) = .ok (some d) := hd
      rw [fetchLoop_cons_accept http params u rest idx d hu]
      rfl
    | succ j0 =>
      have hju : j0 < rest.length := Nat.lt_of_succ_lt_succ hj
      have hd0 : classifyAttempt (http (rest.get ⟨j0, hju⟩) params) = .ok (some d) := hd
      have hb0 : ∀ i (hi : i < j0),
          acceptsB (http (rest.get ⟨i, Nat.lt_trans hi hju⟩) params) = false := by
        intro i hi
        exact hb (i + 1) (Nat.succ_lt_succ hi)
      have hbu : acceptsB (http u params) = false := hb 0 (Nat.succ_pos j0)
      have step := ih (idx + 1) j0 hju d hd0 hb0
      have harith : idx + 1 + j0 = idx + (j0 + 1) := by omega
      cases hc : classifyAttempt (http u params) with
      | ok o =>
        cases o with
        | some d0 =>
          exfalso
          have : acceptsB (http u params) = true := by unfold acceptsB; rw [hc]
          rw [this] at hbu
          exact Bool.noConfusion hbu
        | none =>
          rw [fetchLoop_cons_skip http params u rest idx hc]
          show (fetchLoop http params rest (idx + 1)).1 = _
          rw [step, harith]
          rfl
      | error e =>
        rw [fetchLoop_cons_caught http params u rest idx e hc, isCaught_eq_true e]
        show (fetchLoop http params rest (idx + 1)).1 = _
        rw [step, harith]
        rfl

theorem fetchLoop_exhaust (http : HttpEnv) (params : Params) :
    ∀ (urls : List String) (idx : Nat),
      (∀ url ∈ urls, acceptsB (http url params) = false) →
      (fetchLoop http params urls idx).1 = .ok Option.none := by
  intro urls
  induction urls with
  | nil => intro idx hall; rfl
  | cons u rest ih =>
    intro idx hall
    have hu : acceptsB (http u params) = false := hall u (List.mem_cons_self u rest)
    have hrest : ∀ url ∈ rest, acceptsB (http url params) = false := by
      intro url hmem
      exact hall url (List.mem_cons_of_mem u hmem)
    cases hc : classifyAttempt (http u params) with
    | ok o =>
      cases o with
      | some d =>
        exfalso
        unfold acceptsB at hu
        rw [hc] at hu
        exact Bool.noConfusion hu
      | none =>
        rw [fetchLoop_cons_skip http params u rest idx hc]
        show (fetchLoop http params rest (idx + 1)).1 = _
        exact ih (idx + 1) hrest
    | error e =>
      rw [fetchLoop_cons_caught http params u rest idx e hc, isCaught_eq_true e]
      show (fetchLoop http params rest (idx + 1)).1 = _
      exact ih (idx + 1) hrest

theorem fetchLoop_total (http : HttpEnv) (params : Params) :
    ∀ (urls : List String) (idx : Nat),
      ∃ r, (fetchLoop http params urls idx).1 = .ok r := by
  intro urls
  induction urls with
  | nil => intro idx; exact ⟨Option.none, rfl⟩
  | cons u rest ih =>
    intro idx
    cases hc : classifyAttempt (http u params) with
    | ok o =>
      cases o with
      | some d =>
        rw [fetchLoop_cons_accept http params u rest idx d hc]
        exact ⟨some ⟨d, u, idx⟩, rfl⟩
      | none =>
        rw [fetchLoop_cons_skip http params u rest idx hc]
        exact ih (idx + 1)
    | error e =>
      rw [fetchLoop_cons_caught http params u rest idx e hc, isCaught_eq_true e]
      exact ih (idx + 1)

theorem fetchLoop_calls (http : HttpEnv) (params : Params) :
    ∀ (urls : List String) (idx : Nat) (c : String × Params),
      c ∈ (fetchLoop http params urls idx).2 → c.2 = params := by
  intro urls
  induction urls with
  | nil => intro idx c hc; exact absurd hc (List.not_mem_nil c)
  | cons u rest ih =>
    intro idx c hc
    cases hcl : classifyAttempt (http u params) with
    | ok o =>
      cases o with
      | some d =>
        rw [fetchLoop_cons_accept http params u rest idx d hcl] at hc
        rw [List.mem_singleton.mp hc]
      | none =>
        rw [fetchLoop_cons_skip http params u rest idx hcl] at hc
        rcases List.mem_cons.mp hc with rfl | hmem
        · rfl
        · exact ih (idx + 1) c hmem
    | error e =>
      rw [fetchLoop_cons_caught http params u rest idx e hcl, isCaught_eq_true e] at hc
      rcases List.mem_cons.mp hc with rfl | hmem
      · rfl
      · exact ih (idx + 1) c hmem

theorem api_lookup_cases (t : String) (config : EndpointConfig)
    (h : alookup t API_ENDPOINTS = some config) :
    config = bidNoticeConfig ∨ config = preSpecConfig := by
  simp only [API_ENDPOINTS, alookup] at h
  split at h
  · exact Or.inl (Option.some.inj h).symm
  · split at h
    · exact Or.inr (Option.some.inj h).symm
    · exact Option.noConfusion h

theorem parse_items_ok (r : PyVal) (items : PyVal) (t : String)
    (h : extractItems r = .ok items) :
    parse_items r t =
      if !items.truthy then .ok []
      else
        match alookup t API_ENDPOINTS with
        | Option.none => .error .keyErrorExc
        | some config => mapParse (parse_one config.fields) (wrapItems items) := by
  unfold parse_items
  conv_lhs => rw [h]

theorem parse_one_dict (fields : FieldsCfg) (kvs : List (String × PyVal)) :
    parse_one fields (.dict kvs) =
      match format_datetimeV (pyGetD kvs fields.date (.str "")) with
      | .error e => .error e
      | .ok date =>
        .ok { title := titleChain fields kvs,
              org := pyGetD kvs fields.org (.str "기관명 없음"),
              date := date,
              link := pyGetD kvs fields.link (.str "#"),
              date_label := fields.date_label,
              raw := .dict kvs } := rfl

/-! ## Claim theorems -/

/-- C3: the date formatter maps the 12-character input "202404151230" to
    "2024-04-15 12:30", the 8-character input "20240415" to "2024-04-15",
    the empty input to "-", and any non-empty input of any other length is
    returned unchanged. -/
theorem format_datetime_spec_cases (s : String)
    (h1 : s ≠ "") (h2 : s.length ≠ 12) (h3 : s.length ≠ 8) :
    format_datetime "202404151230" = "2024-04-15 12:30" ∧
    format_datetime "20240415" = "2024-04-15" ∧
    format_datetime "" = "-" ∧
    format_datetime s = s := by
  refine ⟨rfl, rfl, rfl, ?_⟩
  have hb : (s == "") = false := beq_eq_false_iff_ne.mpr h1
  unfold format_datetime
  simp [hb, h2, h3]

theorem format_datetime_spec_cases_witness :
    format_datetime "202404151230" = "2024-04-15 12:30" ∧
    format_datetime "20240415" = "2024-04-15" ∧
    format_datetime "" = "-" ∧
    format_datetime "2024" = "2024" :=
  format_datetime_spec_cases "2024" (by decide) (by decide) (by decide)

/-- C4 counterexample: the present, non-empty, 4-character input "2024" is
    neither a 12-character timestamp nor an 8-character date, yet the
    formatter returns it unchanged instead of the "-" placeholder. -/
theorem format_datetime_dash_claim_cex :
    format_datetime "2024" = "2024" ∧ format_datetime "2024" ≠ "-" :=
  ⟨rfl, by decide⟩

/-- C4 amended: an input that is neither 12 nor 8 characters long becomes
    the "-" placeholder only when it is empty; a non-empty input of any
    other length is passed through unchanged. Only lengths 12 and 8 are
    transformed. -/
theorem format_datetime_amended (s : String)
    (h2 : s.length ≠ 12) (h3 : s.length ≠ 8) :
    format_datetime s = if s = "" then "-" else s := by
  rcases eq_or_ne s "" with rfl | h1
  · rfl
  · have hb : (s == "") = false := beq_eq_false_iff_ne.mpr h1
    unfold format_datetime
    simp [hb, h2, h3, h1]

theorem format_datetime_amended_witness :
    format_datetime "2024" = if "2024" = "" then "-" else "2024" :=
  format_datetime_amended "2024" (by decide) (by decide)

/-- C5: a response whose `response.body.items` is absent (giving `None`),
    null, or the empty collection normalizes to the empty sequence rather
    than failing. -/
theorem parse_items_empty_result (api_response : PyVal) (search_type : String)
    (items : PyVal) (h : extractItems api_response = .ok items)
    (habs : items = PyVal.none ∨ items = PyVal.list []) :
    parse_items api_response search_type = .ok [] := by
  rw [parse_items_ok api_response items search_type h]
  rcases habs with rfl | rfl <;> rfl

theorem parse_items_empty_result_witness :
    parse_items (.dict [("data", .dict [])]) "입찰공고" = .ok [] :=
  parse_items_empty_result (.dict [("data", .dict [])]) "입찰공고" PyVal.none rfl
    (Or.inl rfl)

/-- C6 counterexample: for the empty raw item object, a response carrying it
    bare normalizes to the empty sequence (the falsy-items check fires
    before wrapping), while the same object inside a one-element collection
    normalizes to a one-element sequence — the two are not equal. -/
theorem parse_items_single_vs_wrapped_cex :
    parse_items (respWithItems (.dict [])) "입찰공고" = .ok [] ∧
    parse_items (respWithItems (.list [.dict []])) "입찰공고" =
      .ok [⟨.str "제목 없음", .str "기관명 없음", .str "-", .str "#", "마감일", .dict []⟩] ∧
    parse_items (respWithItems (.dict [])) "입찰공고" ≠
      parse_items (respWithItems (.list [.dict []])) "입찰공고" := by
  refine ⟨rfl, rfl, ?_⟩
  intro hcontra
  have h1 : parse_items (respWithItems (.dict [])) "입찰공고" = .ok [] := rfl
  have h2 : parse_items (respWithItems (.list [.dict []])) "입찰공고" =
      .ok [⟨.str "제목 없음", .str "기관명 없음", .str "-", .str "#", "마감일", .dict []⟩] := rfl
  rw [h1, h2] at hcontra
  exact List.noConfusion (Except.ok.inj hcontra)

/-- C6 amended: for every truthy (non-empty) raw item object, normalizing a
    response whose items field holds that single object bare yields exactly
    the same result as normalizing one whose items field holds the
    one-element collection containing it; the empty object is the exception,
    because Python's falsiness check `if not items` fires on the bare empty
    object but not on the non-empty wrapping list. -/
theorem parse_items_single_vs_wrapped_amended (r1 r2 : PyVal)
    (kvs : List (String × PyVal)) (search_type : String)
    (hne : kvs ≠ [])
    (h1 : extractItems r1 = .ok (PyVal.dict kvs))
    (h2 : extractItems r2 = .ok (PyVal.list [PyVal.dict kvs])) :
    parse_items r1 search_type = parse_items r2 search_type := by
  rw [parse_items_ok r1 (PyVal.dict kvs) search_type h1,
      parse_items_ok r2 (PyVal.list [PyVal.dict kvs]) search_type h2]
  have ht : (PyVal.dict kvs).truthy = true := by
    cases kvs with
    | nil => exact absurd rfl hne
    | cons a l => rfl
  rw [ht]
  rfl

theorem parse_items_single_vs_wrapped_amended_witness :
    parse_items (respWithItems (.dict [("bidNtceNm", .str "T")])) "입찰공고" =
      parse_items (respWithItems (.list [.dict [("bidNtceNm", .str "T")]])) "입찰공고" :=
  parse_items_single_vs_wrapped_amended
    (respWithItems (.dict [("bidNtceNm", .str "T")]))
    (respWithItems (.list [.dict [("bidNtceNm", .str "T")]]))
    [("bidNtceNm", .str "T")] "입찰공고"
    (List.cons_ne_nil _ _) rfl rfl

/-- C7: for every supported mode and raw item, the title is resolved by the
    ordered fallback chain — the mode's canonical title field when it holds
    a truthy value; otherwise the generic product-name field `prdctNm`; then
    the cross-mode title fields `bidNtceNm` and `bfSpecNm`; and the literal
    placeholder "제목 없음" when none of the recognized fields yields a
    truthy value. -/
theorem title_fallback_chain (search_type : String) (config : EndpointConfig)
    (hcfg : alookup search_type API_ENDPOINTS = some config)
    (kvs : List (String × PyVal)) (p : ParsedItem)
    (hp : parse_one config.fields (.dict kvs) = .ok p) :
    ((pyGetD kvs config.fields.title PyVal.none).truthy = true →
      p.title = pyGetD kvs config.fields.title PyVal.none) ∧
    ((pyGetD kvs config.fields.title PyVal.none).truthy = false →
      (pyGetD kvs "prdctNm" PyVal.none).truthy = true →
      p.title = pyGetD kvs "prdctNm" PyVal.none) ∧
    ((pyGetD kvs config.fields.title PyVal.none).truthy = false →
      (pyGetD kvs "prdctNm" PyVal.none).truthy = false →
      (pyGetD kvs "bidNtceNm" PyVal.none).truthy = true →
      p.title = pyGetD kvs "bidNtceNm" PyVal.none) ∧
    ((pyGetD kvs config.fields.title PyVal.none).truthy = false →
      (pyGetD kvs "prdctNm" PyVal.none).truthy = false →
      (pyGetD kvs "bidNtceNm" PyVal.none).truthy = false →
      (pyGetD kvs "bfSpecNm" PyVal.none).truthy = true →
      p.title = pyGetD kvs "bfSpecNm" PyVal.none) ∧
    ((pyGetD kvs config.fields.title PyVal.none).truthy = false →
      (pyGetD kvs "prdctNm" PyVal.none).truthy = false →
      (pyGetD kvs "bidNtceNm" PyVal.none).truthy = false →
      (pyGetD kvs "bfSpecNm" PyVal.none).truthy = false →
      p.title = .str "제목 없음") := by
  have htitle : p.title = titleChain config.fields kvs := by
    rw [parse_one_dict] at hp
    cases hfd : format_datetimeV (pyGetD kvs config.fields.date (.str "")) with
    | error e =>
      rw [hfd] at hp
      exact Except.noConfusion hp
    | ok date0 =>
      rw [hfd] at hp
      have hrec := Except.ok.inj hp
      rw [← hrec]
  refine ⟨?_, ?_, ?_, ?_, ?_⟩
  · intro g1
    rw [htitle]
    simp [titleChain, pyOr, g1]
  · intro g1 g2
    rw [htitle]
    simp [titleChain, pyOr, g1, g2]
  · intro g1 g2 g3
    rw [htitle]
    simp [titleChain, pyOr, g1, g2, g3]
  · intro g1 g2 g3 g4
    rw [htitle]
    simp [titleChain, pyOr, g1, g2, g3, g4]
  · intro g1 g2 g3 g4
    rw [htitle]
    simp [titleChain, pyOr, g1, g2, g3, g4]

theorem title_fallback_chain_witness : pW.title = PyVal.str "W" :=
  (title_fallback_chain "입찰공고" bidNoticeConfig rfl
    [("prdctNm", PyVal.str "W"), ("bidClseDt", PyVal.none)] pW rfl).2.1 rfl rfl

/-- C8: for every valid search request the parameters are built once with
    the begin instant's time forced to 0000 and the end instant's to 2359
    (12 digits when the date part has the standard 8), the credential
    URL-decoded exactly once under `serviceKey`, the page number fixed at 1,
    the response format fixed to JSON, and the keyword under the mode's
    configured search field name; every endpoint attempt sends exactly this
    parameter set. -/
theorem request_params_shape (http : HttpEnv)
    (search_type keyword service_key : String) (start_dt end_dt : PyDate)
    (config : EndpointConfig)
    (hcfg : alookup search_type API_ENDPOINTS = some config)
    (bgn endd : String)
    (hdates : validate_date_range [start_dt, end_dt] = some (bgn, endd))
    (params : Params)
    (hp : params = buildParams config keyword bgn endd service_key) :
    alookup "serviceKey" params = some (unquote service_key) ∧
    alookup "pageNo" params = some "1" ∧
    alookup "type" params = some "json" ∧
    alookup config.param_name params = some keyword ∧
    bgn = strftimeYmd start_dt ++ "0000" ∧
    endd = strftimeYmd end_dt ++ "2359" ∧
    ((strftimeYmd start_dt).length = 8 → bgn.length = 12) ∧
    ((strftimeYmd end_dt).length = 8 → endd.length = 12) ∧
    (∀ c ∈ fetchCalls http search_type keyword bgn endd service_key,
      c.2 = params) := by
  obtain ⟨hb, he⟩ : strftimeYmd start_dt ++ "0000" = bgn ∧
      strftimeYmd end_dt ++ "2359" = endd := by
    have hpair := Option.some.inj hdates
    exact ⟨congrArg Prod.fst hpair, congrArg Prod.snd hpair⟩
  subst hp
  have hcalls : ∀ c ∈ fetchCalls http search_type keyword bgn endd service_key,
      c.2 = buildParams config keyword bgn endd service_key := by
    intro c hc
    unfold fetchCalls at hc
    rw [hcfg] at hc
    exact fetchLoop_calls http _ config.urls 1 c hc
  have hlb : (strftimeYmd start_dt).length = 8 → bgn.length = 12 := by
    intro h8
    rw [← hb, String.length_append, h8]
    rfl
  have hle : (strftimeYmd end_dt).length = 8 → endd.length = 12 := by
    intro h8
    rw [← he, String.length_append, h8]
    rfl
  rcases api_lookup_cases search_type config hcfg with rfl | rfl <;>
    exact ⟨rfl, rfl, rfl, rfl, hb.symm, he.symm, hlb, hle, hcalls⟩

theorem request_params_shape_witness :
    alookup "serviceKey"
        (buildParams bidNoticeConfig "kw" "202404010000" "202404082359" "a%2Bb") =
      some (unquote "a%2Bb") ∧
    alookup "pageNo"
        (buildParams bidNoticeConfig "kw" "202404010000" "202404082359" "a%2Bb") =
      some "1" ∧
    alookup "type"
        (buildParams bidNoticeConfig "kw" "202404010000" "202404082359" "a%2Bb") =
      some "json" ∧
    ("202404010000" : String).length = 12 := by
  have h := request_params_shape httpTimeoutAll "입찰공고" "kw" "a%2Bb"
    ⟨2024, 4, 1⟩ ⟨2024, 4, 8⟩ bidNoticeConfig rfl
    "202404010000" "202404082359" rfl
    (buildParams bidNoticeConfig "kw" "202404010000" "202404082359" "a%2Bb") rfl
  exact ⟨h.1, h.2.1, h.2.2.1, h.2.2.2.2.2.2.1 rfl⟩

/-- C1: for every supported mode, the resolver tries the mode's candidate
    URLs strictly in configured order and returns the first structurally
    accepted response together with the 1-based position of the succeeding
    URL as the attempt index; it never returns a later-ranked endpoint's
    result when an earlier-ranked one was accepted. -/
theorem fetch_first_success_in_order (http : HttpEnv)
    (search_type keyword start_date end_date service_key : String)
    (config : EndpointConfig)
    (hcfg : alookup search_type API_ENDPOINTS = some config)
    (params : Params)
    (hp : params = buildParams config keyword start_date end_date service_key)
    (j : Nat) (hj : j < config.urls.length) (d : PyVal)
    (hd : classifyAttempt (http (config.urls.get ⟨j, hj⟩) params) = .ok (some d))
    (hbefore : ∀ i (hi : i < j),
      acceptsB (http (config.urls.get ⟨i, Nat.lt_trans hi hj⟩) params) = false) :
    fetch_nara_dataE http search_type keyword start_date end_date service_key =
      .ok (some ⟨d, config.urls.get ⟨j, hj⟩, j + 1⟩) := by
  subst hp
  unfold fetch_nara_dataE
  rw [hcfg]
  show (fetchLoop http
    (buildParams config keyword start_date end_date service_key) config.urls 1).1 = _
  rw [fetchLoop_first http
        (buildParams config keyword start_date end_date service_key)
        config.urls 1 j hj d hd hbefore,
      Nat.add_comm 1 j]

theorem fetch_first_success_in_order_witness :
    fetch_nara_dataE httpSecondOK "입찰공고" "k" "202404010000" "202404082359" "s" =
      .ok (some ⟨goodData,
        "https://apis.data.go.kr/1230000/ad/BidPublicInfoService/getBidPblancListInfoServcPPSSrch",
        2⟩) :=
  fetch_first_success_in_order httpSecondOK "입찰공고" "k" "202404010000"
    "202404082359" "s" bidNoticeConfig rfl _ rfl 1 (by decide) goodData rfl
    (by
      intro i hi
      have h0 : i = 0 := by omega
      subst h0
      rfl)

/-- C2 counterexample: when every candidate fails, the resolver returns the
    bare marker `None`; a network where every attempt times out and a
    network where every attempt answers HTTP 500 produce identical return
    values, so the returned failure carries no per-URL error classes. -/
theorem fetch_exhaustion_carries_no_diagnostics :
    fetch_nara_dataE httpTimeoutAll "입찰공고" "k" "202404010000" "202404082359" "key" =
      .ok Option.none ∧
    fetch_nara_dataE http500All "입찰공고" "k" "202404010000" "202404082359" "key" =
      .ok Option.none ∧
    fetch_nara_dataE httpTimeoutAll "입찰공고" "k" "202404010000" "202404082359" "key" =
      fetch_nara_dataE http500All "입찰공고" "k" "202404010000" "202404082359" "key" :=
  ⟨rfl, rfl, rfl⟩

/-- C2 amended: if every candidate endpoint for the mode fails, the resolver
    returns the bare exhaustion marker `None` — carrying no per-URL error
    classes (those are only written to the log) — and it does not raise on
    any single endpoint's failure. -/
theorem fetch_exhaustion_returns_none (http : HttpEnv)
    (search_type keyword start_date end_date service_key : String)
    (config : EndpointConfig)
    (hcfg : alookup search_type API_ENDPOINTS = some config)
    (hall : ∀ url ∈ config.urls,
      acceptsB (http url
        (buildParams config keyword start_date end_date service_key)) = false) :
    fetch_nara_dataE http search_type keyword start_date end_date service_key =
      .ok Option.none := by
  unfold fetch_nara_dataE
  rw [hcfg]
  show (fetchLoop http
    (buildParams config keyword start_date end_date service_key) config.urls 1).1 = _
  exact fetchLoop_exhaust http _ config.urls 1 hall

theorem fetch_exhaustion_returns_none_witness :
    fetch_nara_dataE httpTimeoutAll "사전규격" "k" "202404010000" "202404082359" "key" =
      .ok Option.none :=
  fetch_exhaustion_returns_none httpTimeoutAll "사전규격" "k" "202404010000"
    "202404082359" "key" preSpecConfig rfl (fun url _ => rfl)

/-- C9: the resolver is total at its boundary — whatever the network does,
    every per-attempt exception is matched by one of the loop's handlers,
    so `fetch_nara_data` never propagates an exception: it always returns
    either a success record or the exhaustion marker `None`. -/
theorem fetch_never_raises (http : HttpEnv)
    (search_type keyword start_date end_date service_key : String) :
    ∃ r : Option FetchSuccess,
      fetch_nara_dataE http search_type keyword start_date end_date service_key =
        .ok r := by
  unfold fetch_nara_dataE
  cases hcfg : alookup search_type API_ENDPOINTS with
  | none => exact ⟨Option.none, rfl⟩
  | some config =>
    exact fetchLoop_total http
      (buildParams config keyword start_date end_date service_key) config.urls 1

/-- C10: an HTTP-200 body containing a `response` key whose
    `header.resultCode` is present but falsy (such as the empty string) is
    accepted exactly like an absent `resultCode`; an attempt is classified
    as a business error and skipped only when the `resultCode` is truthy
    and different from "00". -/
theorem falsy_result_code_accepted (data rc : PyVal)
    (hin : pyIn "response" data = .ok true)
    (hrc : getResultCode data = .ok rc) :
    (rc.truthy = false → classifyAttempt (.resp 200 (.ok data)) = .ok (some data)) ∧
    (classifyAttempt (.resp 200 (.ok data)) = .ok Option.none →
      rc.truthy = true ∧ isStr00 rc = false) := by
  have hstep : classifyAttempt (.resp 200 (.ok data)) =
      if rc.truthy && !(isStr00 rc) then .ok Option.none else .ok (some data) := by
    show (match pyIn "response" data with
          | Except.error e => Except.error e
          | Except.ok contains =>
            if !contains then Except.ok Option.none
            else
              match getResultCode data with
              | Except.error e => Except.error e
              | Except.ok rc0 =>
                if rc0.truthy && !(isStr00 rc0) then Except.ok Option.none
                else Except.ok (some data)) = _
    rw [hin]
    show (match getResultCode data with
          | Except.error e => Except.error e
          | Except.ok rc0 =>
            if rc0.truthy && !(isStr00 rc0) then Except.ok Option.none
            else Except.ok (some data)) = _
    rw [hrc]
  constructor
  · intro hfalsy
    rw [hstep, hfalsy]
    rfl
  · intro hnone
    rw [hstep] at hnone
    cases ht : rc.truthy with
    | false =>
      rw [ht] at hnone
      exact absurd (Except.ok.inj hnone) (fun hx => Option.noConfusion hx)
    | true =>
      cases h00 : isStr00 rc with
      | false => exact ⟨rfl, rfl⟩
      | true =>
        rw [ht, h00] at hnone
        exact absurd (Except.ok.inj hnone) (fun hx => Option.noConfusion hx)

theorem falsy_result_code_accepted_witness :
    classifyAttempt (.resp 200 (.ok dataFalsyRC)) = .ok (some dataFalsyRC) :=
  (falsy_result_code_accepted dataFalsyRC (.str "") rfl rfl).1 rfl
